import Mathlib

/-!
Shallow embedding of the feedback follow-up scheduler of the
telegram-notify-bot repository (`src/services/feedback.py`,
`src/infrastructure/repositories.py`, `src/core/models.py`).

Timestamps are modelled as natural numbers counting minutes since an
epoch that falls on a Monday at 00:00, so that `weekday` matches
Python's `datetime.weekday` convention (0 = Monday, ..., 5 = Saturday,
6 = Sunday).  The durable task store is a list of task records plus an
id counter; message sending is modelled by a success oracle
`sendOk : chat id -> text -> Bool` and an outbox collecting every
attempted send.
-/

namespace TelegramNotifyBot

/-- Minutes since a Monday 00:00 epoch. -/
abbrev DateTime := Nat

def minutesPerDay : Nat := 1440

/-- Calendar date (day index) of a timestamp, as in `dt.date()`. -/
def dateOf (t : DateTime) : Nat := t / minutesPerDay

/-- Day of week, Python convention: 0 = Monday, 5 = Saturday, 6 = Sunday. -/
def weekday (t : DateTime) : Nat := dateOf t % 7

/-- Clock time within the day, in minutes. -/
def timeOfDay (t : DateTime) : Nat := t % minutesPerDay

/-- `datetime.combine(date, time(hour=h))`. -/
def combine (d : Nat) (hour : Nat) : DateTime := d * minutesPerDay + hour * 60

/-- `shift_to_monday_morning` from `src/services/feedback.py`: Saturday
moves two days forward, Sunday one day forward, both to `hour:00`;
any other day is returned unchanged. -/
def shift_to_monday_morning (dt : DateTime) (hour : Nat := 10) : DateTime :=
  if weekday dt = 5 then combine (dateOf dt + 2) hour
  else if weekday dt = 6 then combine (dateOf dt + 1) hour
  else dt

/-- `schedule_after_hours` from `src/services/feedback.py`. -/
def schedule_after_hours (base : DateTime) (hours : Nat) : DateTime :=
  shift_to_monday_morning (base + hours * 60)

/-- `FeedbackStatus` from `src/core/models.py`. -/
inductive FeedbackStatus where
  | PENDING
  | ASKING_PICKUP
  | COMPLETED
  | CANCELLED
deriving DecidableEq, Repr

/-- `FeedbackTaskDTO` from `src/core/models.py`. -/
structure FeedbackTaskDTO where
  id : Nat
  user_id : Nat
  created_at : DateTime
  scheduled_for : DateTime
  status : FeedbackStatus
  pickup_attempts : Nat
deriving DecidableEq, Repr

/-- `UserDTO` from `src/core/models.py` (`id` is optional there). -/
structure UserDTO where
  phone_number : String
  name : String
  telegram_id : String
  id : Option Nat
deriving DecidableEq, Repr

/-- The texts the feedback service can send, one constructor per literal
in `src/services/feedback.py`; the admin alert carries the interpolated
name, phone and score. -/
inductive MsgText where
  | checkText
  | noText
  | ratingPrompt
  | mapsReview
  | thanksFive
  | thanksFour
  | apology
  | adminAlert (name : String) (phone : String) (score : Int)
deriving DecidableEq, Repr

def CHECK_TEXT : String := "👋 Привітик! Просто нагадуємо, що ваше замовлення готове і чекає на зустріч з вами. ✨"

def NO_TEXT : String := "Ой, ваші речі вже сумують за вами! 🧥 Чекаємо в робочий час."

def RATING_PROMPT : String := "Чудово! Як вам якість нашої роботи? Оцініть, будь ласка:"

/-- Rendering of each `MsgText` to the literal string used in the code. -/
def renderText : MsgText → String
  | .checkText => CHECK_TEXT
  | .noText => NO_TEXT
  | .ratingPrompt => RATING_PROMPT
  | .mapsReview => "Будемо вдячні за відгук у Google Maps:"
  | .thanksFive => "Дякуємо! 😍 Ми дуже раді!"
  | .thanksFour => "Дякуємо! Ми будемо старатися ще краще. 🙌"
  | .apology => "Нам дуже прикро. 😔 Ми зв\x27яжемось з Вами, щоб виправити ситуацію."
  | .adminAlert name phone score =>
      "🚨 **ALARM: Negative Feedback!**\n" ++ "User: " ++ name ++ "\n" ++
        "Phone: `" ++ phone ++ "`\n" ++ "Rating: " ++ toString score ++ " stars\n" ++
        "*Please contact them ASAP!*"

/-- The reply keyboards of `src/services/feedback.py` and
`src/infrastructure/telegram_adapter.py`, plus the maps inline keyboard. -/
inductive Markup where
  | pickupKb
  | ratingKb
  | memberKb
  | mapsInline (url : String)
deriving DecidableEq, Repr

/-- One attempted `send_message` call: addressee, text, keyboard, parse mode. -/
structure OutMsg where
  chat_id : String
  text : MsgText
  reply_markup : Option Markup
  parse_mode : Option String
deriving DecidableEq, Repr

/-- The feedback-task table: rows plus the autoincrement id counter. -/
structure TaskStore where
  tasks : List FeedbackTaskDTO
  next_id : Nat
deriving DecidableEq, Repr

/-- `SqlAlchemyFeedbackTaskRepository.create_task`: inserts a row with
`pickup_attempts = 0` and the next fresh id, returning the new record. -/
def create_task (s : TaskStore) (user_id : Nat) (created_at : DateTime)
    (scheduled_for : DateTime) (status : FeedbackStatus) :
    FeedbackTaskDTO × TaskStore :=
  let task : FeedbackTaskDTO :=
    { id := s.next_id, user_id := user_id, created_at := created_at,
      scheduled_for := scheduled_for, status := status, pickup_attempts := 0 }
  (task, { tasks := s.tasks ++ [task], next_id := s.next_id + 1 })

def is_active (t : FeedbackTaskDTO) : Bool :=
  t.status = FeedbackStatus.PENDING || t.status = FeedbackStatus.ASKING_PICKUP

def insertBySched (t : FeedbackTaskDTO) :
    List FeedbackTaskDTO → List FeedbackTaskDTO
  | [] => [t]
  | u :: us =>
      if t.scheduled_for ≤ u.scheduled_for then t :: u :: us
      else u :: insertBySched t us

/-- Ascending sort by `scheduled_for` (`order_by(scheduled_for.asc())`). -/
def sortBySched : List FeedbackTaskDTO → List FeedbackTaskDTO
  | [] => []
  | t :: ts => insertBySched t (sortBySched ts)

/-- `SqlAlchemyFeedbackTaskRepository.get_due_tasks`: every `PENDING` or
`ASKING_PICKUP` row with `scheduled_for <= now`, earliest due first. -/
def get_due_tasks (s : TaskStore) (now : DateTime) : List FeedbackTaskDTO :=
  sortBySched (s.tasks.filter (fun t => is_active t && t.scheduled_for ≤ now))

/-- Row with the greatest `created_at` (`order_by(created_at.desc()).first()`). -/
def latestByCreated : List FeedbackTaskDTO → Option FeedbackTaskDTO
  | [] => none
  | t :: ts =>
      match latestByCreated ts with
      | none => some t
      | some u => if t.created_at < u.created_at then some u else some t

/-- `SqlAlchemyFeedbackTaskRepository.get_latest_task_for_user`.  The
status filter is applied only when `statuses` is present and non-empty,
matching the Python truthiness test `if statuses:`. -/
def get_latest_task_for_user (s : TaskStore) (user_id : Nat)
    (statuses : Option (List FeedbackStatus) := none) : Option FeedbackTaskDTO :=
  let base := s.tasks.filter (fun t => t.user_id = user_id)
  let rows :=
    match statuses with
    | none => base
    | some sts => if sts.isEmpty then base else base.filter (fun t => t.status ∈ sts)
  latestByCreated rows

/-- The partial-update semantics of `update_task`: omitted fields keep
their value. -/
def update_fields (t : FeedbackTaskDTO) (status : Option FeedbackStatus)
    (scheduled_for : Option DateTime) (pickup_attempts : Option Nat) :
    FeedbackTaskDTO :=
  { t with
    status := status.getD t.status,
    scheduled_for := scheduled_for.getD t.scheduled_for,
    pickup_attempts := pickup_attempts.getD t.pickup_attempts }

/-- `SqlAlchemyFeedbackTaskRepository.update_task`: partial update of the
row with the given id; a no-op when no row matches. -/
def update_task (s : TaskStore) (task_id : Nat) (status : Option FeedbackStatus)
    (scheduled_for : Option DateTime) (pickup_attempts : Option Nat) : TaskStore :=
  { s with
    tasks := s.tasks.map (fun t =>
      if t.id = task_id then update_fields t status scheduled_for pickup_attempts
      else t) }

/-- `SqlAlchemyUserRepository.get_user_by_id` (lookup by telegram handle). -/
def get_user_by_id (users : List UserDTO) (telegram_id : String) : Option UserDTO :=
  users.find? (fun u => u.telegram_id = telegram_id)

/-- `SqlAlchemyUserRepository.get_user_by_db_id` (lookup by internal id). -/
def get_user_by_db_id (users : List UserDTO) (user_id : Nat) : Option UserDTO :=
  users.find? (fun u => u.id = some user_id)

/-- The row of the task table carrying a given id, if any. -/
def getRow (s : TaskStore) (task_id : Nat) : Option FeedbackTaskDTO :=
  s.tasks.find? (fun t => t.id = task_id)

-- The two button texts of `FeedbackButtons` in `src/services/feedback.py`.
namespace FeedbackButtons

def yes : String := "✅ Так, забрав(ла)"

def no : String := "❌ Ще ні"

end FeedbackButtons

/-- The success oracle standing for `TelegramAdapter.send_message`:
given the addressee and the text, tells whether the send succeeds.
(`send_message` never raises; it returns a boolean.) -/
abbrev SendOracle := String → MsgText → Bool

/-- The dependencies of `FeedbackService`: user directory rows, the task
store, the configured admin ids and the optional maps URL. -/
structure World where
  users : List UserDTO
  store : TaskStore
  admin_ids : List String
  maps_url : Option String
deriving Repr

/-- `FeedbackService.schedule_feedback_for_user`: create a `PENDING`
task due `schedule_after_hours(now, 48)`. -/
def schedule_feedback_for_user (s : TaskStore) (user_id : Nat)
    (created_at : DateTime) : TaskStore :=
  (create_task s user_id created_at (schedule_after_hours created_at 48)
    FeedbackStatus.PENDING).2

/-- One iteration of the loop in
`FeedbackService.process_feedback_queue`, threading the store, the
outbox of attempted sends, and the sent counter. -/
def processDueTask (users : List UserDTO) (sendOk : SendOracle)
    (current : DateTime) (acc : TaskStore × List OutMsg × Nat)
    (task : FeedbackTaskDTO) : TaskStore × List OutMsg × Nat :=
  match get_user_by_db_id users task.user_id with
  | none =>
      (update_task acc.1 task.id (some FeedbackStatus.CANCELLED) none none,
        acc.2.1, acc.2.2)
  | some user =>
      let msg : OutMsg :=
        { chat_id := user.telegram_id, text := MsgText.checkText,
          reply_markup := some Markup.pickupKb, parse_mode := none }
      if sendOk user.telegram_id MsgText.checkText then
        (update_task acc.1 task.id (some FeedbackStatus.ASKING_PICKUP)
            (some (schedule_after_hours current 36)) none,
          acc.2.1 ++ [msg], acc.2.2 + 1)
      else (acc.1, acc.2.1 ++ [msg], acc.2.2)

/-- `FeedbackService.process_feedback_queue`: scan the due tasks and
process each in order; returns the new store, the outbox, and the count
of successfully sent prompts. -/
def process_feedback_queue (w : World) (sendOk : SendOracle)
    (current : DateTime) : TaskStore × List OutMsg × Nat :=
  (get_due_tasks w.store current).foldl
    (processDueTask w.users sendOk current) (w.store, [], 0)

/-- `FeedbackService.handle_pickup_response`: returns the new store and
the outbox of attempted sends. -/
def handle_pickup_response (w : World) (telegram_id : String)
    (response_text : String) (current : DateTime) : TaskStore × List OutMsg :=
  match get_user_by_id w.users telegram_id with
  | none => (w.store, [])
  | some user =>
      match user.id with
      | none => (w.store, [])
      | some uid =>
          match get_latest_task_for_user w.store uid
              (some [FeedbackStatus.PENDING, FeedbackStatus.ASKING_PICKUP]) with
          | none => (w.store, [])
          | some task =>
              if response_text = FeedbackButtons.no then
                let attempts := task.pickup_attempts + 1
                let store' :=
                  if 3 ≤ attempts then
                    update_task w.store task.id (some FeedbackStatus.CANCELLED)
                      none (some attempts)
                  else
                    update_task w.store task.id
                      (some FeedbackStatus.ASKING_PICKUP)
                      (some (schedule_after_hours current 36)) (some attempts)
                (store',
                  [{ chat_id := telegram_id, text := MsgText.noText,
                     reply_markup := some Markup.memberKb, parse_mode := none }])
              else if response_text = FeedbackButtons.yes then
                (update_task w.store task.id (some FeedbackStatus.COMPLETED)
                    none none,
                  [{ chat_id := telegram_id, text := MsgText.ratingPrompt,
                     reply_markup := some Markup.ratingKb, parse_mode := none }])
              else (w.store, [])

/-- The admin alert message for one admin id, with the Python falsy
fallbacks `user.name or Unknown` and `user.phone_number or N/A`. -/
def adminAlertMsg (admin_id : String) (user : UserDTO) (score : Int) : OutMsg :=
  { chat_id := admin_id,
    text := MsgText.adminAlert
      (if user.name = "" then "Unknown" else user.name)
      (if user.phone_number = "" then "N/A" else user.phone_number) score,
    reply_markup := none, parse_mode := some "Markdown" }

/-- `FeedbackService.handle_rating`: branches on the score; never writes
the task store.  Returns the (unchanged) store and the outbox. -/
def handle_rating (w : World) (telegram_id : String) (score : Int) :
    TaskStore × List OutMsg :=
  match get_user_by_id w.users telegram_id with
  | none => (w.store, [])
  | some user =>
      match user.id with
      | none => (w.store, [])
      | some uid =>
          match get_latest_task_for_user w.store uid
              (some [FeedbackStatus.COMPLETED]) with
          | none => (w.store, [])
          | some _task =>
              if score = 5 then
                let mapsMsgs :=
                  match w.maps_url with
                  | some url =>
                      [{ chat_id := telegram_id, text := MsgText.mapsReview,
                         reply_markup := some (Markup.mapsInline url),
                         parse_mode := none : OutMsg }]
                  | none => []
                (w.store, mapsMsgs ++
                  [{ chat_id := telegram_id, text := MsgText.thanksFive,
                     reply_markup := some Markup.memberKb, parse_mode := none }])
              else if score = 4 then
                (w.store,
                  [{ chat_id := telegram_id, text := MsgText.thanksFour,
                     reply_markup := some Markup.memberKb, parse_mode := none }])
              else if 1 ≤ score ∧ score ≤ 3 then
                (w.store,
                  ({ chat_id := telegram_id, text := MsgText.apology,
                     reply_markup := some Markup.memberKb,
                     parse_mode := none } : OutMsg) ::
                    w.admin_ids.map (fun aid => adminAlertMsg aid user score))
              else (w.store, [])

/-- Whether a due task will be counted as sent by
`process_feedback_queue`: its owner resolves and the send succeeds.
This depends only on the static user directory and the send oracle. -/
def sentCond (users : List UserDTO) (sendOk : SendOracle)
    (task : FeedbackTaskDTO) : Bool :=
  match get_user_by_db_id users task.user_id with
  | none => false
  | some user => sendOk user.telegram_id MsgText.checkText

/-- The pickup-prompt sends attempted for one due task: none when the
owner does not resolve, one otherwise. -/
def pickupMsgs (users : List UserDTO) (task : FeedbackTaskDTO) : List OutMsg :=
  match get_user_by_db_id users task.user_id with
  | none => []
  | some user =>
      [{ chat_id := user.telegram_id, text := MsgText.checkText,
         reply_markup := some Markup.pickupKb, parse_mode := none }]

/-- The behaviour of `shift_to_monday_morning` as a single predicate:
dates never move backwards, the result is never on a weekend day, a
shifted result lands exactly at `hour:00`, and a shift occurs exactly
when the input falls on Saturday or Sunday. -/
def ShiftSpec (t : DateTime) (h : Nat) : Prop :=
  dateOf t ≤ dateOf (shift_to_monday_morning t h) ∧
  weekday (shift_to_monday_morning t h) ≠ 5 ∧
  weekday (shift_to_monday_morning t h) ≠ 6 ∧
  ((weekday t = 5 ∨ weekday t = 6) → timeOfDay (shift_to_monday_morning t h) = h * 60) ∧
  (shift_to_monday_morning t h ≠ t ↔ (weekday t = 5 ∨ weekday t = 6))

/-- Statement of C1: a "no" pickup response increments the attempt
counter of the active task by exactly one and persists it; the status
becomes `CANCELLED` exactly when the new count reaches 3, with
`scheduled_for` untouched in that branch, while below the ceiling the
status is `ASKING_PICKUP` and `scheduled_for` is recomputed. -/
def PickupNoSpec (w : World) (telegram_id : String) (current : DateTime)
    (task : FeedbackTaskDTO) : Prop :=
  ∃ task',
    getRow (handle_pickup_response w telegram_id FeedbackButtons.no current).1
        task.id = some task' ∧
    task'.pickup_attempts = task.pickup_attempts + 1 ∧
    (task'.status = FeedbackStatus.CANCELLED ↔ task.pickup_attempts + 1 = 3) ∧
    (task.pickup_attempts + 1 = 3 → task'.scheduled_for = task.scheduled_for) ∧
    (task.pickup_attempts + 1 < 3 →
      task'.status = FeedbackStatus.ASKING_PICKUP ∧
      task'.scheduled_for = schedule_after_hours current 36)

/-- Statement of C2: a due task whose send succeeds ends with status
`ASKING_PICKUP` and `scheduled_for` advanced 36 hours, and is counted;
the returned count is the number of due tasks whose send succeeds, so a
sole such due task yields 1. -/
def ProcessSentSpec (w : World) (sendOk : SendOracle) (current : DateTime)
    (task : FeedbackTaskDTO) : Prop :=
  getRow (process_feedback_queue w sendOk current).1 task.id =
    some { task with
      status := FeedbackStatus.ASKING_PICKUP,
      scheduled_for := schedule_after_hours current 36 } ∧
  (process_feedback_queue w sendOk current).2.2 =
    (get_due_tasks w.store current).countP (sentCond w.users sendOk) ∧
  sentCond w.users sendOk task = true ∧
  (get_due_tasks w.store current = [task] →
    (process_feedback_queue w sendOk current).2.2 = 1)

/-- Statement of C4: after `schedule_feedback_for_user`, the latest
active task of that customer is a fresh `PENDING` task scheduled
48 hours out with zero pickup attempts. -/
def RoundTripSpec (store : TaskStore) (user_id : Nat) (now : DateTime) : Prop :=
  ∃ task,
    get_latest_task_for_user (schedule_feedback_for_user store user_id now)
        user_id
        (some [FeedbackStatus.PENDING, FeedbackStatus.ASKING_PICKUP]) =
      some task ∧
    task.status = FeedbackStatus.PENDING ∧
    task.scheduled_for = schedule_after_hours now 48 ∧
    task.pickup_attempts = 0

/-- Statement of C5: a due task whose owner resolves but whose send
fails is left entirely unchanged and excluded from the count. -/
def ProcessFailSpec (w : World) (sendOk : SendOracle) (current : DateTime)
    (task : FeedbackTaskDTO) : Prop :=
  getRow (process_feedback_queue w sendOk current).1 task.id = some task ∧
  (process_feedback_queue w sendOk current).2.2 =
    (get_due_tasks w.store current).countP (sentCond w.users sendOk) ∧
  sentCond w.users sendOk task = false

/-- Statement of C6: a due task whose owner cannot be resolved is
cancelled (other fields untouched), gets no pickup prompt, and is
excluded from the count while processing continues. -/
def ProcessOrphanSpec (w : World) (sendOk : SendOracle) (current : DateTime)
    (task : FeedbackTaskDTO) : Prop :=
  getRow (process_feedback_queue w sendOk current).1 task.id =
    some { task with status := FeedbackStatus.CANCELLED } ∧
  (process_feedback_queue w sendOk current).2.1 =
    (get_due_tasks w.store current).flatMap (pickupMsgs w.users) ∧
  pickupMsgs w.users task = [] ∧
  (process_feedback_queue w sendOk current).2.2 =
    (get_due_tasks w.store current).countP (sentCond w.users sendOk) ∧
  sentCond w.users sendOk task = false

/-- Statement of C9: a low rating sends exactly one apology to the
customer followed by one alert carrying the score to each configured
admin id; the attempted sends do not depend on any send outcome. -/
def RatingAlertSpec (w : World) (telegram_id : String) (score : Int)
    (user : UserDTO) : Prop :=
  (handle_rating w telegram_id score).2 =
    ({ chat_id := telegram_id, text := MsgText.apology,
       reply_markup := some Markup.memberKb, parse_mode := none } : OutMsg) ::
      w.admin_ids.map (fun aid => adminAlertMsg aid user score) ∧
  ((handle_rating w telegram_id score).2.countP
      (fun m => m.chat_id = telegram_id && m.text = MsgText.apology)) = 1 ∧
  ∀ aid ∈ w.admin_ids,
    ((handle_rating w telegram_id score).2.countP
        (fun m => m.chat_id = aid &&
          m.text = (adminAlertMsg aid user score).text)) = 1

/-! ## Concrete fixtures used by the witnesses -/

def sendAlways : SendOracle := fun _ _ => true

def sendNever : SendOracle := fun _ _ => false

def userW : UserDTO :=
  { phone_number := "+380000000000", name := "Test", telegram_id := "777",
    id := some 1 }

def taskActiveW : FeedbackTaskDTO :=
  { id := 10, user_id := 1, created_at := 100, scheduled_for := 200,
    status := FeedbackStatus.ASKING_PICKUP, pickup_attempts := 2 }

def taskDoneW : FeedbackTaskDTO :=
  { id := 11, user_id := 1, created_at := 50, scheduled_for := 60,
    status := FeedbackStatus.COMPLETED, pickup_attempts := 0 }

def worldActiveW : World :=
  { users := [userW],
    store := { tasks := [taskActiveW], next_id := 12 },
    admin_ids := ["42"], maps_url := none }

def worldDoneW : World :=
  { users := [userW],
    store := { tasks := [taskDoneW], next_id := 12 },
    admin_ids := ["42"], maps_url := none }

def worldOrphanW : World :=
  { users := [],
    store := { tasks := [taskActiveW], next_id := 12 },
    admin_ids := ["42"], maps_url := none }

def emptyStore : TaskStore := { tasks := [], next_id := 0 }

def missingTid : String := "000"

/-! ## Calendar lemmas -/

lemma dateOf_combine (d h : Nat) (hh : h < 24) : dateOf (combine d h) = d := by
  unfold dateOf combine minutesPerDay
  omega

lemma timeOfDay_combine (d h : Nat) (hh : h < 24) :
    timeOfDay (combine d h) = h * 60 := by
  unfold timeOfDay combine minutesPerDay
  omega

lemma weekday_combine (d h : Nat) (hh : h < 24) :
    weekday (combine d h) = d % 7 := by
  unfold weekday
  rw [dateOf_combine d h hh]

/-- C3 (amended): for every timestamp `t` and opening hour `h < 24`,
`shift_to_monday_morning` returns a moment with the same or later date,
never on a weekend day, whose clock time is exactly `h:00` whenever a
shift occurred; and a shift occurs exactly when `t` fell on a weekend
day.  (The original "if and only if" between `h:00` clock time and the
shift is dropped: a weekday input already at `h:00` keeps that clock
time with no shift.) -/
theorem C3_shift_to_monday_morning_amended (t : DateTime) (h : Nat)
    (hh : h < 24) : ShiftSpec t h := by
  unfold ShiftSpec shift_to_monday_morning
  by_cases h5 : weekday t = 5
  · have h5' : dateOf t % 7 = 5 := h5
    rw [if_pos h5]
    refine ⟨?_, ?_, ?_, fun _ => timeOfDay_combine _ h hh, ?_⟩
    · rw [dateOf_combine _ h hh]; omega
    · rw [weekday_combine _ h hh]; omega
    · rw [weekday_combine _ h hh]; omega
    · constructor
      · intro _; exact Or.inl h5
      · intro _ heq
        have hd := congrArg dateOf heq
        rw [dateOf_combine _ h hh] at hd
        omega
  · by_cases h6 : weekday t = 6
    · have h6' : dateOf t % 7 = 6 := h6
      rw [if_neg h5, if_pos h6]
      refine ⟨?_, ?_, ?_, fun _ => timeOfDay_combine _ h hh, ?_⟩
      · rw [dateOf_combine _ h hh]; omega
      · rw [weekday_combine _ h hh]; omega
      · rw [weekday_combine _ h hh]; omega
      · constructor
        · intro _; exact Or.inr h6
        · intro _ heq
          have hd := congrArg dateOf heq
          rw [dateOf_combine _ h hh] at hd
          omega
    · rw [if_neg h5, if_neg h6]
      exact ⟨Nat.le_refl _, h5, h6, fun hc => absurd hc (by simp [h5, h6]),
        by simp [h5, h6]⟩

/-- C3 counterexample: at Monday 10:00 (minute 600) the claimed
equivalence fails — the clock time is exactly 10:00 although no shift
occurred, since Monday is not a weekend day. -/
theorem C3_counterexample_monday_ten :
    ¬ (dateOf 600 ≤ dateOf (shift_to_monday_morning 600 10) ∧
      weekday (shift_to_monday_morning 600 10) ≠ 5 ∧
      weekday (shift_to_monday_morning 600 10) ≠ 6 ∧
      (timeOfDay (shift_to_monday_morning 600 10) = 10 * 60 ↔
        (weekday 600 = 5 ∨ weekday 600 = 6))) := by
  decide

/-- Witness for C3 at Saturday 12:00 (minute 7920), hour 10. -/
theorem C3_witness : 10 < 24 ∧ ShiftSpec 7920 10 :=
  ⟨by decide, C3_shift_to_monday_morning_amended 7920 10 (by decide)⟩

/-! ## Store lemmas -/

lemma insertBySched_perm (t : FeedbackTaskDTO) (l : List FeedbackTaskDTO) :
    (insertBySched t l).Perm (t :: l) := by
  induction l with
  | nil => exact List.Perm.refl _
  | cons u us ih =>
      unfold insertBySched
      by_cases hle : t.scheduled_for ≤ u.scheduled_for
      · rw [if_pos hle]
      · rw [if_neg hle]
        exact (ih.cons u).trans (List.Perm.swap t u us)

lemma sortBySched_perm (l : List FeedbackTaskDTO) : (sortBySched l).Perm l := by
  induction l with
  | nil => exact List.Perm.refl _
  | cons t ts ih =>
      exact (insertBySched_perm t (sortBySched ts)).trans (ih.cons t)

lemma mem_get_due_tasks {s : TaskStore} {now : DateTime} {t : FeedbackTaskDTO}
    (h : t ∈ get_due_tasks s now) :
    t ∈ s.tasks ∧ is_active t = true ∧ t.scheduled_for ≤ now := by
  unfold get_due_tasks at h
  have h' := (sortBySched_perm _).mem_iff.mp h
  rw [List.mem_filter] at h'
  refine ⟨h'.1, ?_, ?_⟩
  · have := h'.2
    simp only [Bool.and_eq_true] at this
    exact this.1
  · have := h'.2
    simp only [Bool.and_eq_true, decide_eq_true_eq] at this
    exact this.2

lemma nodup_due_ids {s : TaskStore} (now : DateTime)
    (h : (s.tasks.map FeedbackTaskDTO.id).Nodup) :
    ((get_due_tasks s now).map FeedbackTaskDTO.id).Nodup := by
  unfold get_due_tasks
  refine ((sortBySched_perm _).map _).nodup_iff.mpr ?_
  exact List.Nodup.sublist
    (List.Sublist.map FeedbackTaskDTO.id (List.filter_sublist s.tasks)) h

lemma find?_id_eq_of_mem {l : List FeedbackTaskDTO} {t : FeedbackTaskDTO}
    (hnd : (l.map FeedbackTaskDTO.id).Nodup) (hm : t ∈ l) :
    l.find? (fun u => u.id = t.id) = some t := by
  induction l with
  | nil => cases hm
  | cons a l ih =>
      rw [List.map_cons, List.nodup_cons] at hnd
      rcases List.mem_cons.mp hm with rfl | hm'
      · simp [List.find?_cons]
      · have hne : (a.id = t.id) = False := by
          simp only [eq_iff_iff, iff_false]
          intro he
          exact hnd.1 (he ▸ List.mem_map_of_mem FeedbackTaskDTO.id hm')
        rw [List.find?_cons]
        simp only [hne, decide_False]
        exact ih hnd.2 hm'

lemma getRow_eq_of_mem {s : TaskStore} {t : FeedbackTaskDTO}
    (hnd : (s.tasks.map FeedbackTaskDTO.id).Nodup) (hm : t ∈ s.tasks) :
    getRow s t.id = some t :=
  find?_id_eq_of_mem hnd hm

lemma find?_map_pres {α : Type} (f : α → α) (p : α → Bool)
    (hp : ∀ a, p (f a) = p a) (l : List α) :
    (l.map f).find? p = (l.find? p).map f := by
  induction l with
  | nil => rfl
  | cons a l ih =>
      rw [List.map_cons, List.find?_cons, List.find?_cons, hp a]
      cases hpa : p a
      · exact ih
      · rfl

lemma update_row_id (task_id : Nat) (status : Option FeedbackStatus)
    (scheduled_for : Option DateTime) (pickup_attempts : Option Nat)
    (a : FeedbackTaskDTO) :
    ((if a.id = task_id then update_fields a status scheduled_for pickup_attempts
      else a)).id = a.id := by
  split <;> rfl

lemma getRow_update_task_ne {s : TaskStore} {task_id x : Nat}
    (status : Option FeedbackStatus) (scheduled_for : Option DateTime)
    (pickup_attempts : Option Nat) (h : task_id ≠ x) :
    getRow (update_task s task_id status scheduled_for pickup_attempts) x =
      getRow s x := by
  unfold getRow update_task
  rw [find?_map_pres _ _ (fun a => by
    rw [update_row_id task_id status scheduled_for pickup_attempts a])]
  cases hf : s.tasks.find? (fun t => t.id = x) with
  | none => rfl
  | some t =>
      have ht : t.id = x := by
        have := List.find?_some hf
        simpa using this
      have hne : ¬ t.id = task_id := by
        rw [ht]
        exact fun he => h he.symm
      simp [hne]

lemma getRow_update_task_self {s : TaskStore} {task_id : Nat}
    {t : FeedbackTaskDTO} (status : Option FeedbackStatus)
    (scheduled_for : Option DateTime) (pickup_attempts : Option Nat)
    (h : getRow s task_id = some t) :
    getRow (update_task s task_id status scheduled_for pickup_attempts) task_id =
      some (update_fields t status scheduled_for pickup_attempts) := by
  unfold getRow update_task
  rw [find?_map_pres _ _ (fun a => by
    rw [update_row_id task_id status scheduled_for pickup_attempts a])]
  unfold getRow at h
  rw [h]
  have ht : t.id = task_id := by
    have := List.find?_some h
    simpa using this
  simp [ht]

lemma latestByCreated_mem {l : List FeedbackTaskDTO} {t : FeedbackTaskDTO}
    (h : latestByCreated l = some t) : t ∈ l := by
  induction l with
  | nil => cases h
  | cons a l ih =>
      cases hl : latestByCreated l with
      | none =>
          simp only [latestByCreated, hl] at h
          obtain rfl := Option.some.inj h
          exact List.mem_cons_self _ _
      | some u =>
          simp only [latestByCreated, hl] at h
          by_cases hc : a.created_at < u.created_at
          · rw [if_pos hc] at h
            obtain rfl := Option.some.inj h
            exact List.mem_cons_of_mem _ (ih hl)
          · rw [if_neg hc] at h
            obtain rfl := Option.some.inj h
            exact List.mem_cons_self _ _

lemma latestByCreated_concat {l : List FeedbackTaskDTO} {t : FeedbackTaskDTO}
    (h : ∀ u ∈ l, u.created_at < t.created_at) :
    latestByCreated (l ++ [t]) = some t := by
  induction l with
  | nil => rfl
  | cons a l ih =>
      have hrest := ih (fun u hu => h u (List.mem_cons_of_mem _ hu))
      rw [List.cons_append]
      simp only [latestByCreated, hrest]
      rw [if_pos (h a (List.mem_cons_self _ _))]

lemma get_latest_some {s : TaskStore} {uid : Nat} {sts : List FeedbackStatus}
    {t : FeedbackTaskDTO} (hne : sts.isEmpty = false)
    (h : get_latest_task_for_user s uid (some sts) = some t) :
    t ∈ s.tasks ∧ t.user_id = uid ∧ t.status ∈ sts := by
  unfold get_latest_task_for_user at h
  simp only [hne, Bool.false_eq_true, if_false] at h
  have hm := latestByCreated_mem h
  simp only [List.mem_filter, decide_eq_true_eq] at hm
  exact ⟨hm.1.1, hm.1.2, hm.2⟩

/-! ## Queue-processing lemmas -/

lemma processDueTask_orphan {users : List UserDTO} (sendOk : SendOracle)
    (current : DateTime) (acc : TaskStore × List OutMsg × Nat)
    {task : FeedbackTaskDTO}
    (hu : get_user_by_db_id users task.user_id = none) :
    processDueTask users sendOk current acc task =
      (update_task acc.1 task.id (some FeedbackStatus.CANCELLED) none none,
        acc.2.1, acc.2.2) := by
  simp [processDueTask, hu]

lemma processDueTask_sent {users : List UserDTO} {sendOk : SendOracle}
    (current : DateTime) (acc : TaskStore × List OutMsg × Nat)
    {task : FeedbackTaskDTO} {user : UserDTO}
    (hu : get_user_by_db_id users task.user_id = some user)
    (hok : sendOk user.telegram_id MsgText.checkText = true) :
    processDueTask users sendOk current acc task =
      (update_task acc.1 task.id (some FeedbackStatus.ASKING_PICKUP)
          (some (schedule_after_hours current 36)) none,
        acc.2.1 ++ pickupMsgs users task, acc.2.2 + 1) := by
  simp [processDueTask, pickupMsgs, hu, hok]

lemma processDueTask_failed {users : List UserDTO} {sendOk : SendOracle}
    (current : DateTime) (acc : TaskStore × List OutMsg × Nat)
    {task : FeedbackTaskDTO} {user : UserDTO}
    (hu : get_user_by_db_id users task.user_id = some user)
    (hok : sendOk user.telegram_id MsgText.checkText = false) :
    processDueTask users sendOk current acc task =
      (acc.1, acc.2.1 ++ pickupMsgs users task, acc.2.2) := by
  simp [processDueTask, pickupMsgs, hu, hok]

lemma foldl_process_count (users : List UserDTO) (sendOk : SendOracle)
    (current : DateTime) :
    ∀ (l : List FeedbackTaskDTO) (acc : TaskStore × List OutMsg × Nat),
      (l.foldl (processDueTask users sendOk current) acc).2.2 =
        acc.2.2 + l.countP (sentCond users sendOk) := by
  intro l
  induction l with
  | nil => intro acc; simp
  | cons t l ih =>
      intro acc
      rw [List.foldl_cons, List.countP_cons]
      cases hu : get_user_by_db_id users t.user_id with
      | none =>
          rw [processDueTask_orphan sendOk current acc hu, ih]
          have hsc : sentCond users sendOk t = false := by simp [sentCond, hu]
          rw [hsc]
          simp
      | some user =>
          cases hok : sendOk user.telegram_id MsgText.checkText with
          | false =>
              rw [processDueTask_failed current acc hu hok, ih]
              have hsc : sentCond users sendOk t = false := by
                simp [sentCond, hu, hok]
              rw [hsc]
              simp
          | true =>
              rw [processDueTask_sent current acc hu hok, ih]
              have hsc : sentCond users sendOk t = true := by
                simp [sentCond, hu, hok]
              rw [hsc]
              simp
              omega

lemma foldl_process_out (users : List UserDTO) (sendOk : SendOracle)
    (current : DateTime) :
    ∀ (l : List FeedbackTaskDTO) (acc : TaskStore × List OutMsg × Nat),
      (l.foldl (processDueTask users sendOk current) acc).2.1 =
        acc.2.1 ++ l.flatMap (pickupMsgs users) := by
  intro l
  induction l with
  | nil => intro acc; simp
  | cons t l ih =>
      intro acc
      rw [List.foldl_cons, List.flatMap_cons]
      cases hu : get_user_by_db_id users t.user_id with
      | none =>
          rw [processDueTask_orphan sendOk current acc hu, ih]
          have hpm : pickupMsgs users t = [] := by simp [pickupMsgs, hu]
          rw [hpm]
          simp
      | some user =>
          cases hok : sendOk user.telegram_id MsgText.checkText with
          | false =>
              rw [processDueTask_failed current acc hu hok, ih]
              rw [List.append_assoc]
          | true =>
              rw [processDueTask_sent current acc hu hok, ih]
              rw [List.append_assoc]

lemma foldl_process_frame (users : List UserDTO) (sendOk : SendOracle)
    (current : DateTime) (x : Nat) :
    ∀ (l : List FeedbackTaskDTO) (acc : TaskStore × List OutMsg × Nat),
      x ∉ l.map FeedbackTaskDTO.id →
      getRow ((l.foldl (processDueTask users sendOk current) acc)).1 x =
        getRow acc.1 x := by
  intro l
  induction l with
  | nil => intro acc _; rfl
  | cons t l ih =>
      intro acc hx
      rw [List.map_cons, List.mem_cons] at hx
      push_neg at hx
      obtain ⟨hx1, hx2⟩ := hx
      rw [List.foldl_cons]
      cases hu : get_user_by_db_id users t.user_id with
      | none =>
          rw [processDueTask_orphan sendOk current acc hu]
          rw [ih _ hx2]
          exact getRow_update_task_ne _ _ _ (fun he => hx1 he.symm)
      | some user =>
          cases hok : sendOk user.telegram_id MsgText.checkText with
          | false =>
              rw [processDueTask_failed current acc hu hok]
              exact ih _ hx2
          | true =>
              rw [processDueTask_sent current acc hu hok]
              rw [ih _ hx2]
              exact getRow_update_task_ne _ _ _ (fun he => hx1 he.symm)

lemma not_mem_of_nodup_middle {α : Type} {l1 l2 : List α} {a : α}
    (h : (l1 ++ a :: l2).Nodup) : a ∉ l1 ∧ a ∉ l2 := by
  rw [List.nodup_append] at h
  obtain ⟨-, h2, hdisj⟩ := h
  rw [List.nodup_cons] at h2
  exact ⟨fun hm => hdisj hm (List.mem_cons_self a l2), h2.1⟩

/-- During a queue scan the row of a given due task is unchanged before
its own turn, and its turn starts from the original row. -/
lemma process_split (w : World) (sendOk : SendOracle) (current : DateTime)
    {task : FeedbackTaskDTO}
    (hnodup : (w.store.tasks.map FeedbackTaskDTO.id).Nodup)
    (hmem : task ∈ get_due_tasks w.store current) :
    ∃ l1 l2, get_due_tasks w.store current = l1 ++ task :: l2 ∧
      task.id ∉ l2.map FeedbackTaskDTO.id ∧
      getRow ((l1.foldl (processDueTask w.users sendOk current)
        (w.store, ([] : List OutMsg), 0))).1 task.id = some task := by
  obtain ⟨l1, l2, hsplit⟩ := List.append_of_mem hmem
  have hdnodup := nodup_due_ids current hnodup
  rw [hsplit, List.map_append, List.map_cons] at hdnodup
  obtain ⟨h1, h2⟩ := not_mem_of_nodup_middle hdnodup
  refine ⟨l1, l2, hsplit, h2, ?_⟩
  rw [foldl_process_frame w.users sendOk current task.id l1 _ h1]
  exact getRow_eq_of_mem hnodup (mem_get_due_tasks hmem).1

/-- Final row of a due task whose owner is missing: cancelled, other
fields untouched. -/
lemma process_row_orphan (w : World) (sendOk : SendOracle) (current : DateTime)
    {task : FeedbackTaskDTO}
    (hnodup : (w.store.tasks.map FeedbackTaskDTO.id).Nodup)
    (hmem : task ∈ get_due_tasks w.store current)
    (hu : get_user_by_db_id w.users task.user_id = none) :
    getRow (process_feedback_queue w sendOk current).1 task.id =
      some { task with status := FeedbackStatus.CANCELLED } := by
  obtain ⟨l1, l2, hsplit, h2, hrow1⟩ := process_split w sendOk current hnodup hmem
  unfold process_feedback_queue
  rw [hsplit, List.foldl_append, List.foldl_cons,
    processDueTask_orphan sendOk current _ hu,
    foldl_process_frame w.users sendOk current task.id l2 _ h2]
  exact getRow_update_task_self _ _ _ hrow1

/-- Final row of a due task whose owner resolves and whose send
succeeds: status advanced to `ASKING_PICKUP`, `scheduled_for` advanced
36 hours, attempts untouched. -/
lemma process_row_sent (w : World) (sendOk : SendOracle) (current : DateTime)
    {task : FeedbackTaskDTO} {user : UserDTO}
    (hnodup : (w.store.tasks.map FeedbackTaskDTO.id).Nodup)
    (hmem : task ∈ get_due_tasks w.store current)
    (hu : get_user_by_db_id w.users task.user_id = some user)
    (hok : sendOk user.telegram_id MsgText.checkText = true) :
    getRow (process_feedback_queue w sendOk current).1 task.id =
      some { task with
        status := FeedbackStatus.ASKING_PICKUP,
        scheduled_for := schedule_after_hours current 36 } := by
  obtain ⟨l1, l2, hsplit, h2, hrow1⟩ := process_split w sendOk current hnodup hmem
  unfold process_feedback_queue
  rw [hsplit, List.foldl_append, List.foldl_cons,
    processDueTask_sent current _ hu hok,
    foldl_process_frame w.users sendOk current task.id l2 _ h2]
  exact getRow_update_task_self _ _ _ hrow1

/-- Final row of a due task whose owner resolves but whose send fails:
the row is exactly the original one. -/
lemma process_row_failed (w : World) (sendOk : SendOracle) (current : DateTime)
    {task : FeedbackTaskDTO} {user : UserDTO}
    (hnodup : (w.store.tasks.map FeedbackTaskDTO.id).Nodup)
    (hmem : task ∈ get_due_tasks w.store current)
    (hu : get_user_by_db_id w.users task.user_id = some user)
    (hok : sendOk user.telegram_id MsgText.checkText = false) :
    getRow (process_feedback_queue w sendOk current).1 task.id = some task := by
  obtain ⟨l1, l2, hsplit, h2, hrow1⟩ := process_split w sendOk current hnodup hmem
  unfold process_feedback_queue
  rw [hsplit, List.foldl_append, List.foldl_cons,
    processDueTask_failed current _ hu hok,
    foldl_process_frame w.users sendOk current task.id l2 _ h2]
  exact hrow1

/-! ## Pickup-response and rating lemmas -/

lemma pickup_no_ceiling (w : World) (tid : String) (current : DateTime)
    {user : UserDTO} {uid : Nat} {task : FeedbackTaskDTO}
    (hu : get_user_by_id w.users tid = some user)
    (hid : user.id = some uid)
    (ht : get_latest_task_for_user w.store uid
      (some [FeedbackStatus.PENDING, FeedbackStatus.ASKING_PICKUP]) = some task)
    (h3 : 3 ≤ task.pickup_attempts + 1) :
    handle_pickup_response w tid FeedbackButtons.no current =
      (update_task w.store task.id (some FeedbackStatus.CANCELLED) none
          (some (task.pickup_attempts + 1)),
        [{ chat_id := tid, text := MsgText.noText,
           reply_markup := some Markup.memberKb, parse_mode := none }]) := by
  simp [handle_pickup_response, hu, hid, ht, h3]

lemma pickup_no_below (w : World) (tid : String) (current : DateTime)
    {user : UserDTO} {uid : Nat} {task : FeedbackTaskDTO}
    (hu : get_user_by_id w.users tid = some user)
    (hid : user.id = some uid)
    (ht : get_latest_task_for_user w.store uid
      (some [FeedbackStatus.PENDING, FeedbackStatus.ASKING_PICKUP]) = some task)
    (h3 : ¬ 3 ≤ task.pickup_attempts + 1) :
    handle_pickup_response w tid FeedbackButtons.no current =
      (update_task w.store task.id (some FeedbackStatus.ASKING_PICKUP)
          (some (schedule_after_hours current 36))
          (some (task.pickup_attempts + 1)),
        [{ chat_id := tid, text := MsgText.noText,
           reply_markup := some Markup.memberKb, parse_mode := none }]) := by
  simp [handle_pickup_response, hu, hid, ht, h3]

lemma pickup_yes_eq (w : World) (tid : String) (current : DateTime)
    {user : UserDTO} {uid : Nat} {task : FeedbackTaskDTO}
    (hu : get_user_by_id w.users tid = some user)
    (hid : user.id = some uid)
    (ht : get_latest_task_for_user w.store uid
      (some [FeedbackStatus.PENDING, FeedbackStatus.ASKING_PICKUP]) = some task) :
    handle_pickup_response w tid FeedbackButtons.yes current =
      (update_task w.store task.id (some FeedbackStatus.COMPLETED) none none,
        [{ chat_id := tid, text := MsgText.ratingPrompt,
           reply_markup := some Markup.ratingKb, parse_mode := none }]) := by
  have hne : ¬ (FeedbackButtons.yes = FeedbackButtons.no) := by decide
  simp [handle_pickup_response, hu, hid, ht, hne]

lemma handle_rating_store_eq (w : World) (telegram_id : String) (score : Int) :
    (handle_rating w telegram_id score).1 = w.store := by
  unfold handle_rating
  repeat' split
  all_goals rfl

/-! ## Claim C1 -/

/-- C1: for an active task (`PENDING` or `ASKING_PICKUP`, which the
lookup guarantees) with fewer than 3 recorded attempts — the data-model
invariant for non-terminal tasks — a "no" pickup response increments
`pickup_attempts` by exactly 1 and persists it; the status becomes
`CANCELLED` exactly when the new count reaches 3, and in that branch
`scheduled_for` is untouched, while below the ceiling the status is set
to `ASKING_PICKUP` and `scheduled_for` becomes
`schedule_after_hours(now, 36)`. -/
theorem C1_pickup_no_retry_ceiling (w : World) (tid : String)
    (current : DateTime) (user : UserDTO) (uid : Nat) (task : FeedbackTaskDTO)
    (hnodup : (w.store.tasks.map FeedbackTaskDTO.id).Nodup)
    (hu : get_user_by_id w.users tid = some user)
    (hid : user.id = some uid)
    (ht : get_latest_task_for_user w.store uid
      (some [FeedbackStatus.PENDING, FeedbackStatus.ASKING_PICKUP]) = some task)
    (hlt : task.pickup_attempts < 3) :
    PickupNoSpec w tid current task := by
  have htask := get_latest_some (by rfl) ht
  have hrow : getRow w.store task.id = some task :=
    getRow_eq_of_mem hnodup htask.1
  unfold PickupNoSpec
  by_cases h3 : 3 ≤ task.pickup_attempts + 1
  · rw [pickup_no_ceiling w tid current hu hid ht h3]
    refine ⟨update_fields task (some FeedbackStatus.CANCELLED) none
      (some (task.pickup_attempts + 1)), ?_, rfl, ?_, ?_, ?_⟩
    · exact getRow_update_task_self _ _ _ hrow
    · exact ⟨fun _ => by omega, fun _ => rfl⟩
    · intro _
      rfl
    · intro hcontra
      omega
  · rw [pickup_no_below w tid current hu hid ht h3]
    refine ⟨update_fields task (some FeedbackStatus.ASKING_PICKUP)
      (some (schedule_after_hours current 36)) (some (task.pickup_attempts + 1)),
      ?_, rfl, ?_, ?_, ?_⟩
    · exact getRow_update_task_self _ _ _ hrow
    · constructor
      · intro hst
        simp [update_fields] at hst
      · intro heq
        omega
    · intro heq
      omega
    · intro _
      exact ⟨rfl, rfl⟩

/-- Witness for C1 on a concrete world whose active task has two prior
attempts, so the "no" response hits the retry ceiling. -/
theorem C1_witness :
    (worldActiveW.store.tasks.map FeedbackTaskDTO.id).Nodup ∧
    get_user_by_id worldActiveW.users userW.telegram_id = some userW ∧
    userW.id = some 1 ∧
    get_latest_task_for_user worldActiveW.store 1
      (some [FeedbackStatus.PENDING, FeedbackStatus.ASKING_PICKUP]) =
      some taskActiveW ∧
    taskActiveW.pickup_attempts < 3 ∧
    PickupNoSpec worldActiveW userW.telegram_id 300 taskActiveW :=
  ⟨by decide, by decide, by decide, by decide, by decide,
    C1_pickup_no_retry_ceiling worldActiveW userW.telegram_id 300 userW 1
      taskActiveW (by decide) (by decide) (by decide) (by decide) (by decide)⟩

/-! ## Claims C2, C5, C6 -/

/-- C2: every due task whose owner resolves and whose pickup-prompt send
succeeds ends the scan with status `ASKING_PICKUP` and `scheduled_for`
advanced to `schedule_after_hours(now, 36)`, and the returned count is
the number of due tasks with a successful send — in particular 1 when
that task is the only due one. -/
theorem C2_process_due_send_success (w : World) (sendOk : SendOracle)
    (current : DateTime) (task : FeedbackTaskDTO) (user : UserDTO)
    (hnodup : (w.store.tasks.map FeedbackTaskDTO.id).Nodup)
    (hmem : task ∈ get_due_tasks w.store current)
    (hu : get_user_by_db_id w.users task.user_id = some user)
    (hok : sendOk user.telegram_id MsgText.checkText = true) :
    ProcessSentSpec w sendOk current task := by
  have hsc : sentCond w.users sendOk task = true := by simp [sentCond, hu, hok]
  have hcount : (process_feedback_queue w sendOk current).2.2 =
      (get_due_tasks w.store current).countP (sentCond w.users sendOk) := by
    unfold process_feedback_queue
    rw [foldl_process_count]
    simp
  refine ⟨process_row_sent w sendOk current hnodup hmem hu hok, hcount, hsc, ?_⟩
  intro hsingle
  rw [hcount, hsingle]
  simp [List.countP_cons, hsc]

/-- Witness for C2 on a one-task world whose send always succeeds. -/
theorem C2_witness :
    (worldActiveW.store.tasks.map FeedbackTaskDTO.id).Nodup ∧
    taskActiveW ∈ get_due_tasks worldActiveW.store 300 ∧
    get_user_by_db_id worldActiveW.users taskActiveW.user_id = some userW ∧
    sendAlways userW.telegram_id MsgText.checkText = true ∧
    ProcessSentSpec worldActiveW sendAlways 300 taskActiveW :=
  ⟨by decide, by decide, by decide, by decide,
    C2_process_due_send_success worldActiveW sendAlways 300 taskActiveW userW
      (by decide) (by decide) (by decide) (by decide)⟩

/-- C5: every due task whose owner resolves but whose pickup-prompt send
fails keeps its status, `scheduled_for` and `pickup_attempts` unchanged
(its row after the scan is exactly the original row) and is excluded
from the returned count. -/
theorem C5_process_due_send_failure (w : World) (sendOk : SendOracle)
    (current : DateTime) (task : FeedbackTaskDTO) (user : UserDTO)
    (hnodup : (w.store.tasks.map FeedbackTaskDTO.id).Nodup)
    (hmem : task ∈ get_due_tasks w.store current)
    (hu : get_user_by_db_id w.users task.user_id = some user)
    (hok : sendOk user.telegram_id MsgText.checkText = false) :
    ProcessFailSpec w sendOk current task := by
  have hsc : sentCond w.users sendOk task = false := by simp [sentCond, hu, hok]
  have hcount : (process_feedback_queue w sendOk current).2.2 =
      (get_due_tasks w.store current).countP (sentCond w.users sendOk) := by
    unfold process_feedback_queue
    rw [foldl_process_count]
    simp
  exact ⟨process_row_failed w sendOk current hnodup hmem hu hok, hcount, hsc⟩

/-- Witness for C5 on a one-task world whose send always fails. -/
theorem C5_witness :
    (worldActiveW.store.tasks.map FeedbackTaskDTO.id).Nodup ∧
    taskActiveW ∈ get_due_tasks worldActiveW.store 300 ∧
    get_user_by_db_id worldActiveW.users taskActiveW.user_id = some userW ∧
    sendNever userW.telegram_id MsgText.checkText = false ∧
    ProcessFailSpec worldActiveW sendNever 300 taskActiveW :=
  ⟨by decide, by decide, by decide, by decide,
    C5_process_due_send_failure worldActiveW sendNever 300 taskActiveW userW
      (by decide) (by decide) (by decide) (by decide)⟩

/-- C6: every due task whose owner cannot be resolved by internal id is
transitioned to `CANCELLED` (other fields untouched), gets no pickup
prompt in the outbox, and is excluded from the returned count, while the
scan continues over the remaining due tasks. -/
theorem C6_process_due_orphan (w : World) (sendOk : SendOracle)
    (current : DateTime) (task : FeedbackTaskDTO)
    (hnodup : (w.store.tasks.map FeedbackTaskDTO.id).Nodup)
    (hmem : task ∈ get_due_tasks w.store current)
    (hu : get_user_by_db_id w.users task.user_id = none) :
    ProcessOrphanSpec w sendOk current task := by
  have hsc : sentCond w.users sendOk task = false := by simp [sentCond, hu]
  have hpm : pickupMsgs w.users task = [] := by simp [pickupMsgs, hu]
  have hcount : (process_feedback_queue w sendOk current).2.2 =
      (get_due_tasks w.store current).countP (sentCond w.users sendOk) := by
    unfold process_feedback_queue
    rw [foldl_process_count]
    simp
  have hout : (process_feedback_queue w sendOk current).2.1 =
      (get_due_tasks w.store current).flatMap (pickupMsgs w.users) := by
    unfold process_feedback_queue
    rw [foldl_process_out]
    rfl
  exact ⟨process_row_orphan w sendOk current hnodup hmem hu, hout, hpm,
    hcount, hsc⟩

/-- Witness for C6 on a world whose user directory is empty. -/
theorem C6_witness :
    (worldOrphanW.store.tasks.map FeedbackTaskDTO.id).Nodup ∧
    taskActiveW ∈ get_due_tasks worldOrphanW.store 300 ∧
    get_user_by_db_id worldOrphanW.users taskActiveW.user_id = none ∧
    ProcessOrphanSpec worldOrphanW sendAlways 300 taskActiveW :=
  ⟨by decide, by decide, by decide,
    C6_process_due_orphan worldOrphanW sendAlways 300 taskActiveW
      (by decide) (by decide) (by decide)⟩

/-! ## Claim C4 -/

lemma get_latest_concat {s : TaskStore} {uid : Nat} {sts : List FeedbackStatus}
    {new : FeedbackTaskDTO} {l : List FeedbackTaskDTO}
    (htasks : s.tasks = l ++ [new])
    (hne : sts.isEmpty = false) (huser : new.user_id = uid)
    (hst : new.status ∈ sts)
    (hmax : ∀ t ∈ l, t.user_id = uid → t.created_at < new.created_at) :
    get_latest_task_for_user s uid (some sts) = some new := by
  unfold get_latest_task_for_user
  simp only [htasks, hne, Bool.false_eq_true, if_false, List.filter_append,
    List.filter_cons, List.filter_nil, huser, hst, decide_True, if_true]
  apply latestByCreated_concat
  intro u hu
  rw [List.mem_filter] at hu
  obtain ⟨hu1, -⟩ := hu
  rw [List.mem_filter] at hu1
  obtain ⟨humem, huuid⟩ := hu1
  rw [decide_eq_true_eq] at huuid
  exact hmax u humem huuid

/-- C4: scheduling a follow-up and immediately asking for the latest
active task of that customer returns the new task: status `PENDING`,
`scheduled_for = schedule_after_hours(now, 48)` and zero pickup
attempts — provided every pre-existing task of that customer was
created strictly before `now`. -/
theorem C4_schedule_then_latest (store : TaskStore) (user_id : Nat)
    (now : DateTime)
    (hfresh : ∀ t ∈ store.tasks, t.user_id = user_id → t.created_at < now) :
    RoundTripSpec store user_id now := by
  unfold RoundTripSpec
  refine ⟨_, get_latest_concat rfl rfl rfl ?_ ?_, rfl, rfl, rfl⟩
  · exact List.mem_cons_self _ _
  · intro t ht hu
    exact hfresh t ht hu

/-- Witness for C4 from the empty store. -/
theorem C4_witness :
    (∀ t ∈ emptyStore.tasks, t.user_id = 1 → t.created_at < 0) ∧
    RoundTripSpec emptyStore 1 0 :=
  ⟨by simp [emptyStore],
    C4_schedule_then_latest emptyStore 1 0 (by simp [emptyStore])⟩

/-! ## Claim C8 -/

/-- C8: a "yes" pickup response is a complete no-op — no store write and
no message — both when the handle resolves to a customer who has no
`PENDING` or `ASKING_PICKUP` task, and when the handle resolves to no
customer at all. -/
theorem C8_yes_without_active_task (w : World) (tid : String)
    (current : DateTime) :
    (∀ user uid, get_user_by_id w.users tid = some user →
      user.id = some uid →
      get_latest_task_for_user w.store uid
        (some [FeedbackStatus.PENDING, FeedbackStatus.ASKING_PICKUP]) = none →
      handle_pickup_response w tid FeedbackButtons.yes current =
        (w.store, [])) ∧
    (get_user_by_id w.users tid = none →
      handle_pickup_response w tid FeedbackButtons.yes current =
        (w.store, [])) := by
  constructor
  · intro user uid hu hid ht
    simp [handle_pickup_response, hu, hid, ht]
  · intro hu
    simp [handle_pickup_response, hu]

/-- Witness for C8: a customer whose only task is `COMPLETED`, and an
unknown handle. -/
theorem C8_witness :
    handle_pickup_response worldDoneW userW.telegram_id FeedbackButtons.yes 0 =
      (worldDoneW.store, []) ∧
    handle_pickup_response worldDoneW missingTid FeedbackButtons.yes 0 =
      (worldDoneW.store, []) :=
  ⟨(C8_yes_without_active_task worldDoneW userW.telegram_id 0).1 userW 1
      (by decide) (by decide) (by decide),
    (C8_yes_without_active_task worldDoneW missingTid 0).2 (by decide)⟩

/-! ## Claim C10 -/

/-- C10: `handle_rating` never writes the task store — for every handle
and every score, also outside 1..5 and also when the customer or the
completed task is missing, the store after the call is exactly the store
before, so no task field changes and no task is created. -/
theorem C10_rating_never_writes_store (w : World) (telegram_id : String)
    (score : Int) : (handle_rating w telegram_id score).1 = w.store :=
  handle_rating_store_eq w telegram_id score

/-! ## Claim C7 -/

lemma find?_append_of_some {α : Type} {p : α → Bool} {l1 l2 : List α} {a : α}
    (h : l1.find? p = some a) : (l1 ++ l2).find? p = some a := by
  rw [List.find?_append, h]
  rfl

lemma pickup_nouser_eq (w : World) (tid : String) (resp : String)
    (current : DateTime) (hu : get_user_by_id w.users tid = none) :
    handle_pickup_response w tid resp current = (w.store, []) := by
  simp [handle_pickup_response, hu]

lemma pickup_noid_eq (w : World) (tid : String) (resp : String)
    (current : DateTime) {user : UserDTO}
    (hu : get_user_by_id w.users tid = some user) (hid : user.id = none) :
    handle_pickup_response w tid resp current = (w.store, []) := by
  simp [handle_pickup_response, hu, hid]

lemma pickup_notask_eq (w : World) (tid : String) (resp : String)
    (current : DateTime) {user : UserDTO} {uid : Nat}
    (hu : get_user_by_id w.users tid = some user)
    (hid : user.id = some uid)
    (ht : get_latest_task_for_user w.store uid
      (some [FeedbackStatus.PENDING, FeedbackStatus.ASKING_PICKUP]) = none) :
    handle_pickup_response w tid resp current = (w.store, []) := by
  simp [handle_pickup_response, hu, hid, ht]

lemma pickup_other_eq (w : World) (tid : String) (resp : String)
    (current : DateTime) {user : UserDTO} {uid : Nat} {task : FeedbackTaskDTO}
    (hu : get_user_by_id w.users tid = some user)
    (hid : user.id = some uid)
    (ht : get_latest_task_for_user w.store uid
      (some [FeedbackStatus.PENDING, FeedbackStatus.ASKING_PICKUP]) = some task)
    (hno : ¬ resp = FeedbackButtons.no) (hyes : ¬ resp = FeedbackButtons.yes) :
    handle_pickup_response w tid resp current = (w.store, []) := by
  simp [handle_pickup_response, hu, hid, ht, hno, hyes]

/-- C7: terminal states are absorbing — the row of a `COMPLETED` or
`CANCELLED` task is exactly the same after any of the four operations,
for any arguments: scheduling a follow-up for any customer, a full
due-queue scan, any pickup response, and any rating. -/
theorem C7_terminal_absorbing (w : World) (t : FeedbackTaskDTO) (uid : Nat)
    (now : DateTime) (sendOk : SendOracle) (current : DateTime) (tid : String)
    (resp : String) (score : Int)
    (hnodup : (w.store.tasks.map FeedbackTaskDTO.id).Nodup)
    (hmem : t ∈ w.store.tasks)
    (hterm : t.status = FeedbackStatus.COMPLETED ∨
      t.status = FeedbackStatus.CANCELLED) :
    getRow (schedule_feedback_for_user w.store uid now) t.id = some t ∧
    getRow (process_feedback_queue w sendOk current).1 t.id = some t ∧
    getRow (handle_pickup_response w tid resp current).1 t.id = some t ∧
    getRow (handle_rating w tid score).1 t.id = some t := by
  have hrow : getRow w.store t.id = some t := getRow_eq_of_mem hnodup hmem
  have hactive_false : is_active t = false := by
    rcases hterm with h | h <;> simp [is_active, h]
  refine ⟨?_, ?_, ?_, ?_⟩
  · have h0 : w.store.tasks.find? (fun u => u.id = t.id) = some t := hrow
    exact find?_append_of_some h0
  · have hnotdue :
        t.id ∉ (get_due_tasks w.store current).map FeedbackTaskDTO.id := by
      intro hin
      obtain ⟨u, humem, huid⟩ := List.mem_map.mp hin
      obtain ⟨humem', huact, -⟩ := mem_get_due_tasks humem
      have h1 : getRow w.store u.id = some u := getRow_eq_of_mem hnodup humem'
      rw [huid, hrow] at h1
      obtain rfl := Option.some.inj h1
      rw [hactive_false] at huact
      exact Bool.false_ne_true huact
    unfold process_feedback_queue
    rw [foldl_process_frame w.users sendOk current t.id _ _ hnotdue]
    exact hrow
  · cases hu : get_user_by_id w.users tid with
    | none =>
        rw [pickup_nouser_eq w tid resp current hu]
        exact hrow
    | some user =>
        cases hid : user.id with
        | none =>
            rw [pickup_noid_eq w tid resp current hu hid]
            exact hrow
        | some uid2 =>
            cases hlt : get_latest_task_for_user w.store uid2
                (some [FeedbackStatus.PENDING,
                  FeedbackStatus.ASKING_PICKUP]) with
            | none =>
                rw [pickup_notask_eq w tid resp current hu hid hlt]
                exact hrow
            | some tk =>
                have htk := get_latest_some (by rfl) hlt
                have hne : tk.id ≠ t.id := by
                  intro he
                  have h1 : getRow w.store tk.id = some tk :=
                    getRow_eq_of_mem hnodup htk.1
                  rw [he, hrow] at h1
                  obtain rfl := Option.some.inj h1
                  have hst := htk.2.2
                  rcases hterm with h | h <;> simp [h] at hst
                by_cases hno : resp = FeedbackButtons.no
                · subst hno
                  by_cases h3 : 3 ≤ tk.pickup_attempts + 1
                  · rw [pickup_no_ceiling w tid current hu hid hlt h3]
                    rw [getRow_update_task_ne _ _ _ hne]
                    exact hrow
                  · rw [pickup_no_below w tid current hu hid hlt h3]
                    rw [getRow_update_task_ne _ _ _ hne]
                    exact hrow
                · by_cases hyes : resp = FeedbackButtons.yes
                  · subst hyes
                    rw [pickup_yes_eq w tid current hu hid hlt]
                    rw [getRow_update_task_ne _ _ _ hne]
                    exact hrow
                  · rw [pickup_other_eq w tid resp current hu hid hlt hno hyes]
                    exact hrow
  · rw [handle_rating_store_eq]
    exact hrow

/-- Witness for C7 on a world holding one `COMPLETED` task. -/
theorem C7_witness :
    ((worldDoneW.store.tasks.map FeedbackTaskDTO.id).Nodup ∧
      taskDoneW ∈ worldDoneW.store.tasks ∧
      (taskDoneW.status = FeedbackStatus.COMPLETED ∨
        taskDoneW.status = FeedbackStatus.CANCELLED)) ∧
    (getRow (schedule_feedback_for_user worldDoneW.store 5 0) taskDoneW.id =
        some taskDoneW ∧
      getRow (process_feedback_queue worldDoneW sendAlways 300).1
        taskDoneW.id = some taskDoneW ∧
      getRow (handle_pickup_response worldDoneW userW.telegram_id
          FeedbackButtons.yes 300).1 taskDoneW.id = some taskDoneW ∧
      getRow (handle_rating worldDoneW userW.telegram_id 2).1 taskDoneW.id =
        some taskDoneW) :=
  ⟨⟨by decide, by decide, by decide⟩,
    C7_terminal_absorbing worldDoneW taskDoneW 5 0 sendAlways 300
      userW.telegram_id FeedbackButtons.yes 2 (by decide) (by decide)
      (by decide)⟩

/-! ## Claim C9 -/

lemma countP_eq_one_of_nodup {l : List String} {a : String}
    (hnd : l.Nodup) (ha : a ∈ l) :
    l.countP (fun x => decide (x = a)) = 1 := by
  induction l with
  | nil => cases ha
  | cons b l ih =>
      rw [List.nodup_cons] at hnd
      rw [List.countP_cons]
      rcases List.mem_cons.mp ha with rfl | ha'
      · have hz : l.countP (fun x => decide (x = a)) = 0 := by
          rw [List.countP_eq_zero]
          intro x hx
          simp only [decide_eq_true_eq]
          intro he
          exact hnd.1 (he ▸ hx)
        rw [hz]
        simp
      · rw [ih hnd.2 ha']
        have hba : ¬ (b = a) := fun he => hnd.1 (he ▸ ha')
        simp [hba]

/-- C9: a rating in 1..3 from a customer with a latest `COMPLETED` task
produces exactly one apology to the customer followed by exactly one
alert carrying the score to each configured admin id; the list of
attempted sends is the same however individual sends succeed or fail,
since the code never consults the send outcome. -/
theorem C9_low_rating_admin_fanout (w : World) (tid : String) (score : Int)
    (user : UserDTO) (uid : Nat) (task : FeedbackTaskDTO)
    (hadm : w.admin_ids.Nodup)
    (hu : get_user_by_id w.users tid = some user)
    (hid : user.id = some uid)
    (ht : get_latest_task_for_user w.store uid
      (some [FeedbackStatus.COMPLETED]) = some task)
    (h1 : 1 ≤ score) (h3 : score ≤ 3) :
    RatingAlertSpec w tid score user := by
  have h5 : ¬ score = 5 := by omega
  have h4 : ¬ score = 4 := by omega
  have hout : (handle_rating w tid score).2 =
      ({ chat_id := tid, text := MsgText.apology,
         reply_markup := some Markup.memberKb, parse_mode := none } : OutMsg) ::
        w.admin_ids.map (fun aid => adminAlertMsg aid user score) := by
    simp [handle_rating, hu, hid, ht, h5, h4, h1, h3]
  refine ⟨hout, ?_, ?_⟩
  · rw [hout, List.countP_cons]
    have hz : (w.admin_ids.map (fun aid => adminAlertMsg aid user score)).countP
        (fun m => m.chat_id = tid && m.text = MsgText.apology) = 0 := by
      rw [List.countP_eq_zero]
      intro m hm
      obtain ⟨aid, -, rfl⟩ := List.mem_map.mp hm
      simp [adminAlertMsg]
    rw [hz]
    simp
  · intro aid haid
    rw [hout, List.countP_cons, List.countP_map]
    have htail :
        ((fun m : OutMsg => m.chat_id = aid &&
            m.text = (adminAlertMsg aid user score).text) ∘
          (fun aid' => adminAlertMsg aid' user score)) =
        (fun aid' => decide (aid' = aid)) := by
      funext aid'
      simp [adminAlertMsg]
    rw [htail, countP_eq_one_of_nodup hadm haid]
    simp [adminAlertMsg]

/-- Witness for C9: one configured admin id `"42"`, rating score 2. -/
theorem C9_witness :
    worldDoneW.admin_ids.Nodup ∧
    get_user_by_id worldDoneW.users userW.telegram_id = some userW ∧
    userW.id = some 1 ∧
    get_latest_task_for_user worldDoneW.store 1
      (some [FeedbackStatus.COMPLETED]) = some taskDoneW ∧
    (1 : Int) ≤ 2 ∧ (2 : Int) ≤ 3 ∧
    RatingAlertSpec worldDoneW userW.telegram_id 2 userW :=
  ⟨by decide, by decide, by decide, by decide, by decide, by decide,
    C9_low_rating_admin_fanout worldDoneW userW.telegram_id 2 userW 1 taskDoneW
      (by decide) (by decide) (by decide) (by decide) (by decide) (by decide)⟩

end TelegramNotifyBot
